import Mathlib

/-!
Verification development for the distant repository.

Shallow embedding of:
- src/distant-net/src/common/authentication/msg.rs (authentication messages)
- src/src/cli/commands/client/shell.rs (PTY shell bridge, client side)
- src/src/cli/commands/common/format.rs (output formatter)
- src/src/lib.rs (logging initialization)

Rust HashMap over String keys is modelled as a partial map
String to Option String; machine integer casts are modelled on Int/Nat
with explicit modular reduction.
-/

namespace Distant

/-- Partial map modelling Rust HashMap of String to String. -/
abbrev StrMap := String → Option String

/-- The empty map, modelling HashMap::new(). -/
def StrMap.empty : StrMap := fun _ => none

/-- Map membership, modelling HashMap::contains_key. -/
def StrMap.contains_key (m : StrMap) (k : String) : Bool := (m k).isSome

/-- Map insertion, modelling HashMap::insert (value replaced when present). -/
def StrMap.insert (m : StrMap) (k v : String) : StrMap :=
  fun x => if x = k then some v else m x

/-! ## Embedding of src/distant-net/src/common/authentication/msg.rs -/

/-- VerificationKind from msg.rs lines 111-123: the type of verification
being requested, with Unknown as the serde(other) decoding fallback. -/
inductive VerificationKind where
  | Host
  | Unknown
deriving DecidableEq, Repr

/-- Serialization of VerificationKind discriminants: serde rename_all =
snake_case turns Host into the string host and Unknown into unknown
(matching the display attributes in the source). -/
def VerificationKind.encode : VerificationKind → String
  | .Host => "host"
  | .Unknown => "unknown"

/-- Deserialization of VerificationKind discriminants: the serde(other)
attribute on Unknown (msg.rs line 121) makes every unrecognized
discriminant string decode to Unknown; decoding is total and never fails. -/
def VerificationKind.decode (s : String) : VerificationKind :=
  if s = "host" then .Host else .Unknown

/-- VerificationKind::known_variants from msg.rs lines 126-129:
all variants except unknown. -/
def VerificationKind.known_variants : List VerificationKind := [.Host]

/-- Question from msg.rs lines 132-144: a single challenge question. -/
structure Question where
  label : String
  text : String
  options : StrMap

/-- Question::new from msg.rs lines 146-156: creates a question without any
options data, using the text for both label and text. -/
def Question.new (text : String) : Question :=
  { label := text, text := text, options := StrMap.empty }

/-- Challenge from msg.rs lines 52-57. -/
structure Challenge where
  questions : List Question
  options : StrMap

/-- ChallengeResponse from msg.rs lines 97-102. -/
structure ChallengeResponse where
  answers : List String
deriving DecidableEq

/-- ErrorKind from msg.rs lines 199-208: the type of error encountered
during authentication. -/
inductive ErrorKind where
  | Fatal
  | Error
deriving DecidableEq, Repr

/-- ErrorKind::is_fatal from msg.rs lines 210-216. -/
def ErrorKind.is_fatal : ErrorKind → Bool
  | .Fatal => true
  | .Error => false

/-- Error from msg.rs lines 159-168: an error that occurred during
authentication. -/
structure Error where
  kind : ErrorKind
  text : String
deriving DecidableEq

/-- Error::fatal from msg.rs lines 171-177. -/
def Error.fatal (text : String) : Error :=
  { kind := ErrorKind.Fatal, text := text }

/-- Error::non_fatal from msg.rs lines 179-185. -/
def Error.non_fatal (text : String) : Error :=
  { kind := ErrorKind.Error, text := text }

/-- Error::is_fatal from msg.rs lines 187-191. -/
def Error.is_fatal (e : Error) : Bool := e.kind.is_fatal

/-- Kinds of std::io::Error relevant to this development. -/
inductive IoErrorKind where
  | NotFound
  | PermissionDenied
  | AlreadyExists
  | InvalidData
  | Other
deriving DecidableEq, Repr

/-- A std::io::Error wrapping an authentication error as its source. -/
structure IoError where
  kind : IoErrorKind
  source : Error
deriving DecidableEq

/-- Error::into_io_permission_denied from msg.rs lines 193-196: wraps the
authentication error in a std::io::Error with kind PermissionDenied. -/
def Error.into_io_permission_denied (e : Error) : IoError :=
  { kind := IoErrorKind.PermissionDenied, source := e }

/-- Modelled from the spec: the arity rule for challenge responses is stated
in the data-model invariants and section 8 of the spec, but the responder
validation code is not under src. A response is well-formed exactly when it
carries one answer per question. -/
def wellFormedChallengeResponse (c : Challenge) (r : ChallengeResponse) : Bool :=
  r.answers.length == c.questions.length

/-- Modelled from the spec: a responder that produces a response with
mismatched arity is rejected; the validation code is not under src. -/
def acceptChallengeResponse (c : Challenge) (r : ChallengeResponse) :
    Except String ChallengeResponse :=
  if wellFormedChallengeResponse c r then Except.ok r
  else Except.error "challenge response has mismatched arity"

/-! ## Embedding of src/src/cli/commands/client/shell.rs -/

/-- The process environment passed to Shell::spawn, modelling the
Environment map of String to String. -/
abbrev Environment := StrMap

/-- Shell::spawn lines 30-33: automatically add TERM=xterm-256color to the
environment if not specified. -/
def prepareShellEnvironment (environment : Environment) : Environment :=
  if !environment.contains_key "TERM" then
    environment.insert "TERM" "xterm-256color"
  else
    environment

/-- Lowercases an ASCII uppercase letter, leaving every other character
unchanged (the per-character step of Rust eq_ignore_ascii_case). -/
def asciiToLower (c : Char) : Char :=
  if 'A' ≤ c ∧ c ≤ 'Z' then Char.ofNat (c.toNat + 32) else c

/-- Rust str::eq_ignore_ascii_case: equality after lowercasing ASCII
letters on both sides. -/
def eqIgnoreAsciiCase (a b : String) : Bool :=
  a.toList.map asciiToLower == b.toList.map asciiToLower

/-- Shell::spawn lines 35-50: use the provided shell command, or determine
the remote operating system to pick one. The second component records
whether the system_info request was issued (it is issued exactly in the
None branch). The family argument is the family reported by system_info. -/
def chooseShellCmd (cmd : Option String) (family : String) : String × Bool :=
  match cmd with
  | some c => (c, false)
  | none =>
    (if eqIgnoreAsciiCase family "windows" then "cmd.exe" else "/bin/sh", true)

/-- Process completion status delivered by proc.wait(), carrying success
and the optional exit code (an i32 in the source, modelled as Int). -/
structure ProcessStatus where
  success : Bool
  code : Option Int
deriving DecidableEq, Repr

/-- CliError as used by Shell::spawn: Exit carries a u8 exit code
(modelled as Nat), Failure is the generic failure CliError::FAILURE. -/
inductive CliError where
  | Exit (code : Nat)
  | Failure
deriving DecidableEq, Repr

/-- The Rust cast expression code as u8 applied to an i32: truncation to
the low byte of the 32-bit two's-complement bit pattern. -/
def i32AsU8 (i : Int) : Nat := ((i % 4294967296) % 256).toNat

/-- Shell::spawn lines 120-128: after the awaited process completes,
return Ok on success; otherwise exit with the remote code cast to u8 when
present, or with the generic failure otherwise. -/
def shellSpawnOutcome (status : ProcessStatus) : Except CliError Unit :=
  if !status.success then
    match status.code with
    | some code => Except.error (CliError.Exit (i32AsU8 code))
    | none => Except.error CliError.Failure
  else
    Except.ok ()

/-! ## Embedding of src/src/lib.rs (init_logging) -/

/-- flexi_logger LevelFilter values. -/
inductive LevelFilter where
  | Off
  | ErrorL
  | Warn
  | Info
  | Debug
  | Trace
deriving DecidableEq, Repr

/-- A log specification builder: a default level and per-module override
levels, modelling flexi_logger LogSpecification::builder(). -/
structure LogSpecBuilder where
  defaultLevel : LevelFilter
  modules : List (String × LevelFilter)

/-- builder.default(l): set the default level filter. -/
def LogSpecBuilder.setDefault (b : LogSpecBuilder) (l : LevelFilter) : LogSpecBuilder :=
  { b with defaultLevel := l }

/-- builder.module(m, l): set the level for module m, replacing any
previous setting for m. -/
def LogSpecBuilder.module (b : LogSpecBuilder) (m : String) (l : LevelFilter) : LogSpecBuilder :=
  { b with modules := (m, l) :: b.modules.filter (fun e => !(e.1 == m)) }

/-- The level the built specification assigns to module m: the module
override when present, the default otherwise. -/
def LogSpecBuilder.levelFor (b : LogSpecBuilder) (m : String) : LevelFilter :=
  match b.modules.find? (fun e => e.1 == m) with
  | some e => e.2
  | none => b.defaultLevel

/-- init_logging from lib.rs lines 20-52 (the log-specification part):
default Off for everything, the distant module level from the verbose
count, and Off for the distant module as well when quiet is set. -/
def init_logging (quiet : Bool) (verbose : Nat) : LogSpecBuilder :=
  let mdl := "distant"
  let builder :=
    (LogSpecBuilder.mk LevelFilter.Off []).setDefault LevelFilter.Off |>.module mdl
      (match verbose with
       | 0 => LevelFilter.Warn
       | 1 => LevelFilter.Info
       | 2 => LevelFilter.Debug
       | _ => LevelFilter.Trace)
  if quiet then builder.module mdl LevelFilter.Off else builder

/-! ## Embedding of src/src/cli/commands/common/format.rs -/

/-- Format from the CLI options: json or shell output. -/
inductive Format where
  | Json
  | Shell
deriving DecidableEq, Repr

/-- DistantMsg: a response payload that is either a single entry or a
batch of entries. -/
inductive DistantMsg (T : Type) where
  | Single (t : T)
  | Batch (ts : List T)
deriving DecidableEq, Repr

/-- DistantMsg::is_batch. -/
def DistantMsg.is_batch {T : Type} : DistantMsg T → Bool
  | .Single _ => false
  | .Batch _ => true

/-- DistantMsg::into_single. -/
def DistantMsg.into_single {T : Type} : DistantMsg T → Option T
  | .Single t => some t
  | .Batch _ => none

/-- A response envelope: id, optional origin id, and the payload. -/
structure Response (T : Type) where
  id : String
  origin_id : Option String
  payload : T
deriving DecidableEq, Repr

/-- FormatterState from format.rs lines 17-21: the last seen path during
search (paths modelled as strings). -/
structure FormatterState where
  last_searched_path : Option String
deriving DecidableEq, Repr

/-- Output from format.rs lines 114-121: the output content and
destination. -/
inductive Output where
  | Stdout (x : String)
  | StdoutLine (x : String)
  | Stderr (x : String)
  | StderrLine (x : String)
  | None
deriving DecidableEq, Repr

/-- Which stream a write goes to. -/
inductive OutChannel where
  | StdoutCh
  | StderrCh
deriving DecidableEq, Repr

/-- The writes performed for an Output by Formatter::print lines 60-108:
line outputs write the content and then a newline to the stream; non-line
outputs write the content and flush. -/
def Output.writes : Output → List (OutChannel × String)
  | .Stdout x => [(OutChannel.StdoutCh, x)]
  | .StdoutLine x => [(OutChannel.StdoutCh, x), (OutChannel.StdoutCh, "\n")]
  | .Stderr x => [(OutChannel.StderrCh, x)]
  | .StderrLine x => [(OutChannel.StderrCh, x), (OutChannel.StderrCh, "\n")]
  | .None => []

/-- Formatter::print from format.rs lines 43-58, parametric in the
payload entry type, the shell per-entry formatter (format_shell in the
source) and the serializer (serde_json::to_vec in the source, which can
fail). Json serializes the whole envelope as a stdout line, mapping a
serialization failure to an InvalidData io error as in format.rs lines
45-47; Shell rejects batch payloads with an InvalidData error before
producing any output, and otherwise formats the single entry. The Batch
arm is the is_batch guard; the Single arm is the into_single().unwrap()
path. -/
def printResponse {D : Type}
    (format_shell : FormatterState → D → Output × FormatterState)
    (serialize : Response (DistantMsg D) → Except String String)
    (format : Format) (state : FormatterState)
    (res : Response (DistantMsg D)) : Except IoErrorKind (Output × FormatterState) :=
  match format with
  | .Json =>
    match serialize res with
    | Except.ok bytes => Except.ok (Output.StdoutLine bytes, state)
    | Except.error _ => Except.error IoErrorKind.InvalidData
  | .Shell =>
    match res.payload with
    | .Batch _ => Except.error IoErrorKind.InvalidData
    | .Single d => Except.ok (format_shell state d)

/-- A single search match from the SearchResults payload: either a path
match or a contents match carrying path, line number and line text. -/
inductive SearchQueryMatch where
  | Path (path : String)
  | Contents (path : String) (line_number : Nat) (lines : String)
deriving DecidableEq, Repr

/-- Whether a match is a path match. -/
def SearchQueryMatch.isPathMatch : SearchQueryMatch → Bool
  | .Path _ => true
  | .Contents _ _ _ => false

/-- The path a match refers to. -/
def SearchQueryMatch.matchPath : SearchQueryMatch → String
  | .Path p => p
  | .Contents p _ _ => p

/-- Rust str::trim_end: drop trailing whitespace characters. -/
def trimEnd (s : String) : String :=
  String.mk ((s.toList.reverse.dropWhile Char.isWhitespace).reverse)

/-- The line recorded for a contents match, from format.rs lines 305-308:
the line number, a colon, and the line text with trailing whitespace
trimmed. -/
def formatContentLine (line_number : Nat) (lines : String) : String :=
  toString line_number ++ ":" ++ trimEnd lines

/-- files.entry(path).or_default() when no line is pushed: ensure the path
has an entry, keeping existing lines. Grouping uses an association list in
first-insertion order in place of the HashMap of the source. -/
def entryOrDefault (files : List (String × List String)) (p : String) :
    List (String × List String) :=
  if files.any (fun e => e.1 == p) then files else files ++ [(p, [])]

/-- files.entry(path).or_default().push(line): append the line to the
path's entry, creating the entry if needed. -/
def entryPush (files : List (String × List String)) (p : String) (line : String) :
    List (String × List String) :=
  if files.any (fun e => e.1 == p) then
    files.map (fun e => if e.1 == p then (e.1, e.2 ++ [line]) else e)
  else
    files ++ [(p, [line])]

/-- The grouping loop of the SearchResults arm, format.rs lines 286-311:
fold over the matches accumulating the per-path groups and the
is_targeting_paths flag (set when a path match is seen). -/
def groupMatchesAux (acc : List (String × List String) × Bool) :
    List SearchQueryMatch → List (String × List String) × Bool
  | [] => acc
  | SearchQueryMatch.Path p :: ms =>
    groupMatchesAux (entryOrDefault acc.1 p, true) ms
  | SearchQueryMatch.Contents p n l :: ms =>
    groupMatchesAux (entryPush acc.1 p (formatContentLine n l), acc.2) ms

/-- Group a SearchResults batch by path and compute is_targeting_paths. -/
def groupMatches (ms : List SearchQueryMatch) : List (String × List String) × Bool :=
  groupMatchesAux ([], false) ms

/-- The body of the rendering loop of the SearchResults arm, format.rs
lines 314-335, for one group: when the path differs from the last seen
path, print a blank separator line when some path was seen before and the
batch is not targeting paths, then print the path header; print the
group's lines; record the path as last seen. Output is the list of lines
written (a writeln per element, the empty string being the blank line). -/
def renderSearchGroup (is_targeting_paths : Bool) (st : FormatterState)
    (path : String) (lines : List String) : List String × FormatterState :=
  let header : List String :=
    if st.last_searched_path ≠ some path then
      (if st.last_searched_path.isSome && !is_targeting_paths then [""] else [])
        ++ [path]
    else []
  (header ++ lines, FormatterState.mk (some path))

/-- The rendering loop over all groups. -/
def renderSearchGroups (is_targeting_paths : Bool) (st : FormatterState) :
    List (String × List String) → List String × FormatterState
  | [] => ([], st)
  | (p, ls) :: rest =>
    let step := renderSearchGroup is_targeting_paths st p ls
    let recur := renderSearchGroups is_targeting_paths step.2 rest
    (step.1 ++ recur.1, recur.2)

/-- The SearchResults arm of format_shell, format.rs lines 285-342, as the
list of lines written and the resulting formatter state. -/
def formatShellSearchResults (st : FormatterState) (ms : List SearchQueryMatch) :
    List String × FormatterState :=
  let grouped := groupMatches ms
  renderSearchGroups grouped.2 st grouped.1

/-! ## Helper lemmas -/

/-- Membership reading of the any-key test used by the entry operations. -/
theorem anyKey_iff (files : List (String × List String)) (p : String) :
    files.any (fun e => e.1 == p) = true ↔ p ∈ files.map Prod.fst := by
  simp [List.any_eq_true, List.mem_map, beq_iff_eq]

/-- entryOrDefault's effect on the key list. -/
theorem keys_entryOrDefault (files : List (String × List String)) (p : String) :
    (entryOrDefault files p).map Prod.fst =
      if p ∈ files.map Prod.fst then files.map Prod.fst
      else files.map Prod.fst ++ [p] := by
  by_cases h : p ∈ files.map Prod.fst
  · have hb : files.any (fun e => e.1 == p) = true := (anyKey_iff files p).mpr h
    simp [entryOrDefault, hb, h]
  · have hb : ¬ files.any (fun e => e.1 == p) = true :=
      fun hh => h ((anyKey_iff files p).mp hh)
    simp [entryOrDefault, hb, h]

/-- entryPush's effect on the key list. -/
theorem keys_entryPush (files : List (String × List String)) (p line : String) :
    (entryPush files p line).map Prod.fst =
      if p ∈ files.map Prod.fst then files.map Prod.fst
      else files.map Prod.fst ++ [p] := by
  by_cases h : p ∈ files.map Prod.fst
  · have hb : files.any (fun e => e.1 == p) = true := (anyKey_iff files p).mpr h
    simp only [entryPush, hb, if_true, if_pos h, List.map_map]
    refine List.map_congr_left ?_
    intro e _
    by_cases he : (e.1 == p) = true
    · simp [Function.comp, he]
    · simp [Function.comp, he]
  · have hb : ¬ files.any (fun e => e.1 == p) = true :=
      fun hh => h ((anyKey_iff files p).mp hh)
    simp [entryPush, hb, h]

/-- Key membership after entryOrDefault. -/
theorem mem_keys_entryOrDefault (files : List (String × List String)) (p q : String) :
    q ∈ (entryOrDefault files p).map Prod.fst ↔
      q ∈ files.map Prod.fst ∨ q = p := by
  rw [keys_entryOrDefault]
  by_cases h : p ∈ files.map Prod.fst
  · simp only [h, if_true]
    constructor
    · exact Or.inl
    · rintro (hq | rfl)
      · exact hq
      · exact h
  · simp [h]

/-- Key membership after entryPush. -/
theorem mem_keys_entryPush (files : List (String × List String)) (p line q : String) :
    q ∈ (entryPush files p line).map Prod.fst ↔
      q ∈ files.map Prod.fst ∨ q = p := by
  rw [keys_entryPush]
  by_cases h : p ∈ files.map Prod.fst
  · simp only [h, if_true]
    constructor
    · exact Or.inl
    · rintro (hq | rfl)
      · exact hq
      · exact h
  · simp [h]

/-- Key membership through the grouping loop. -/
theorem mem_keys_groupMatchesAux (ms : List SearchQueryMatch) :
    ∀ (acc : List (String × List String) × Bool) (q : String),
      q ∈ (groupMatchesAux acc ms).1.map Prod.fst ↔
        q ∈ acc.1.map Prod.fst ∨ q ∈ ms.map SearchQueryMatch.matchPath := by
  induction ms with
  | nil =>
    intro acc q
    simp [groupMatchesAux]
  | cons m ms ih =>
    intro acc q
    cases m with
    | Path p =>
      rw [groupMatchesAux, ih, mem_keys_entryOrDefault]
      simp [SearchQueryMatch.matchPath, or_assoc]
    | Contents p n l =>
      rw [groupMatchesAux, ih, mem_keys_entryPush]
      simp [SearchQueryMatch.matchPath, or_assoc]

/-- Key distinctness is preserved by the grouping loop. -/
theorem nodup_keys_groupMatchesAux (ms : List SearchQueryMatch) :
    ∀ acc : List (String × List String) × Bool,
      (acc.1.map Prod.fst).Nodup → ((groupMatchesAux acc ms).1.map Prod.fst).Nodup := by
  induction ms with
  | nil =>
    intro acc h
    simpa [groupMatchesAux] using h
  | cons m ms ih =>
    intro acc h
    cases m with
    | Path p =>
      rw [groupMatchesAux]
      refine ih _ ?_
      rw [keys_entryOrDefault]
      by_cases hp : p ∈ acc.1.map Prod.fst
      · simpa [hp] using h
      · simp only [hp, if_false]
        exact h.append (List.nodup_singleton p) (by simp [List.disjoint_singleton, hp])
    | Contents p n l =>
      rw [groupMatchesAux]
      refine ih _ ?_
      rw [keys_entryPush]
      by_cases hp : p ∈ acc.1.map Prod.fst
      · simpa [hp] using h
      · simp only [hp, if_false]
        exact h.append (List.nodup_singleton p) (by simp [List.disjoint_singleton, hp])

/-- The is_targeting_paths flag computed by the grouping loop. -/
theorem snd_groupMatchesAux (ms : List SearchQueryMatch) :
    ∀ acc : List (String × List String) × Bool,
      (groupMatchesAux acc ms).2 = (acc.2 || ms.any SearchQueryMatch.isPathMatch) := by
  induction ms with
  | nil =>
    intro acc
    simp [groupMatchesAux]
  | cons m ms ih =>
    intro acc
    cases m with
    | Path p =>
      rw [groupMatchesAux, ih]
      simp [SearchQueryMatch.isPathMatch]
    | Contents p n l =>
      rw [groupMatchesAux, ih]
      simp [SearchQueryMatch.isPathMatch]

/-! ## Claim theorems -/

/-- Claim C1: decoding a Verification kind whose discriminant is not a
recognized (known) variant never fails and yields Unknown; re-encoding the
decoded value writes the discriminant string unknown; hence decode then
encode returns the original discriminant exactly when it was already
unknown. -/
theorem c1_unknown_kind_decode_roundtrip (s : String)
    (h : s ∉ VerificationKind.known_variants.map VerificationKind.encode) :
    VerificationKind.decode s = VerificationKind.Unknown
    ∧ (VerificationKind.decode s).encode = "unknown"
    ∧ ((VerificationKind.decode s).encode = s ↔ s = "unknown") := by
  have hs : s ≠ "host" := by
    simpa [VerificationKind.known_variants, VerificationKind.encode] using h
  refine ⟨?_, ?_, ?_⟩
  · simp [VerificationKind.decode, hs]
  · simp [VerificationKind.decode, VerificationKind.encode, hs]
  · simp [VerificationKind.decode, VerificationKind.encode, hs, eq_comm]

/-- Witness for C1 at the concrete unrecognized discriminant string foo. -/
theorem c1_unknown_kind_decode_roundtrip_witness :
    VerificationKind.decode "foo" = VerificationKind.Unknown
    ∧ (VerificationKind.decode "foo").encode = "unknown"
    ∧ ((VerificationKind.decode "foo").encode = "foo" ↔ "foo" = "unknown") :=
  c1_unknown_kind_decode_roundtrip "foo" (by decide)

/-- Claim C2: a challenge response is well-formed exactly when it has one
answer per question, the acceptance check accepts exactly the well-formed
responses, and a response with mismatched arity is rejected. -/
theorem c2_challenge_response_arity (c : Challenge) (r : ChallengeResponse) :
    (wellFormedChallengeResponse c r = true ↔
      r.answers.length = c.questions.length)
    ∧ (acceptChallengeResponse c r = Except.ok r ↔
      r.answers.length = c.questions.length)
    ∧ (r.answers.length ≠ c.questions.length →
      acceptChallengeResponse c r =
        Except.error "challenge response has mismatched arity") := by
  by_cases h : r.answers.length = c.questions.length
  · simp [wellFormedChallengeResponse, acceptChallengeResponse, h]
  · simp [wellFormedChallengeResponse, acceptChallengeResponse, h]

/-- Witness for C2: a one-question challenge rejects an empty answer list. -/
theorem c2_challenge_response_arity_witness :
    acceptChallengeResponse (Challenge.mk [Question.new "key"] StrMap.empty)
        (ChallengeResponse.mk []) =
      Except.error "challenge response has mismatched arity" :=
  (c2_challenge_response_arity (Challenge.mk [Question.new "key"] StrMap.empty)
    (ChallengeResponse.mk [])).2.2 (by decide)

/-- Claim C3: shell formatting of search_results groups matches by path
(every match path appears exactly once as a group key), the
is_targeting_paths flag is set exactly when the batch contains a path
match, and the rendered output of a group carries a leading blank line
exactly when a path was seen before, it differs from the group's path, and
the batch is not targeting paths (that is, the reported results are
content matches rather than pure path matches). -/
theorem c3_search_results_blank_line (is_targeting_paths : Bool)
    (st : FormatterState) (path : String) (lines : List String)
    (ms : List SearchQueryMatch) :
    ((renderSearchGroup is_targeting_paths st path lines).1 =
      (if st.last_searched_path.isSome = true ∧ st.last_searched_path ≠ some path
          ∧ is_targeting_paths = false then [""] else [])
        ++ (if st.last_searched_path ≠ some path then [path] else []) ++ lines)
    ∧ (renderSearchGroup is_targeting_paths st path lines).2 =
        FormatterState.mk (some path)
    ∧ (groupMatches ms).2 = ms.any SearchQueryMatch.isPathMatch
    ∧ (∀ q : String, q ∈ (groupMatches ms).1.map Prod.fst ↔
        q ∈ ms.map SearchQueryMatch.matchPath)
    ∧ ((groupMatches ms).1.map Prod.fst).Nodup
    ∧ formatShellSearchResults st ms =
        renderSearchGroups (ms.any SearchQueryMatch.isPathMatch) st
          (groupMatches ms).1 := by
  refine ⟨?_, rfl, ?_, ?_, ?_, ?_⟩
  · obtain ⟨lp⟩ := st
    cases lp with
    | none => cases is_targeting_paths <;> simp [renderSearchGroup]
    | some q =>
      by_cases h : q = path
      · subst h
        simp [renderSearchGroup]
      · cases is_targeting_paths <;> simp [renderSearchGroup, h]
  · simp [groupMatches, snd_groupMatchesAux]
  · intro q
    simp only [groupMatches]
    rw [mem_keys_groupMatchesAux]
    simp
  · exact nodup_keys_groupMatchesAux ms ([], false) (by simp)
  · simp [formatShellSearchResults, groupMatches, snd_groupMatchesAux]

/-- Claim C4: Shell::spawn returns Ok when the remote process succeeded;
on failure it exits with the remote code reduced modulo 256 (the u8 cast
of the i32 code) when present, and with the generic failure otherwise. -/
theorem c4_shell_exit_code (status : ProcessStatus) :
    (status.success = true → shellSpawnOutcome status = Except.ok ())
    ∧ (status.success = false → ∀ c : Int, status.code = some c →
      shellSpawnOutcome status = Except.error (CliError.Exit ((c % 256).toNat)))
    ∧ (status.success = false → status.code = none →
      shellSpawnOutcome status = Except.error CliError.Failure) := by
  obtain ⟨s, cd⟩ := status
  refine ⟨?_, ?_, ?_⟩
  · rintro rfl
    simp [shellSpawnOutcome]
  · rintro rfl c rfl
    simp only [shellSpawnOutcome, Bool.not_false, if_true, i32AsU8]
    rw [Int.emod_emod_of_dvd c (by norm_num : (256 : Int) ∣ 4294967296)]
  · rintro rfl rfl
    simp [shellSpawnOutcome]

/-- Witness for C4, covering the three completion shapes; the negative
exit code shows the two's-complement low-byte reduction. -/
theorem c4_shell_exit_code_witness :
    shellSpawnOutcome (ProcessStatus.mk true none) = Except.ok ()
    ∧ shellSpawnOutcome (ProcessStatus.mk false (some (-1))) =
        Except.error (CliError.Exit 255)
    ∧ shellSpawnOutcome (ProcessStatus.mk false none) =
        Except.error CliError.Failure := by
  refine ⟨(c4_shell_exit_code (ProcessStatus.mk true none)).1 rfl, ?_,
    (c4_shell_exit_code (ProcessStatus.mk false none)).2.2 rfl rfl⟩
  have h := (c4_shell_exit_code (ProcessStatus.mk false (some (-1)))).2.1 rfl (-1) rfl
  rw [show (((-1 : Int) % 256)).toNat = 255 by decide] at h
  exact h

/-- Claim C5: an authentication error is fatal exactly when its kind is
Fatal (for both Error::is_fatal and ErrorKind::is_fatal), and converting
it at the caller boundary yields a std::io::Error of kind
PermissionDenied carrying the original error. -/
theorem c5_fatal_error_permission_denied (e : Error) (k : ErrorKind) :
    (e.is_fatal = true ↔ e.kind = ErrorKind.Fatal)
    ∧ (k.is_fatal = true ↔ k = ErrorKind.Fatal)
    ∧ (e.into_io_permission_denied).kind = IoErrorKind.PermissionDenied
    ∧ (e.into_io_permission_denied).source = e := by
  refine ⟨?_, ?_, rfl, rfl⟩
  · cases hk : e.kind <;> simp [Error.is_fatal, ErrorKind.is_fatal, hk]
  · cases k <;> simp [ErrorKind.is_fatal]

/-- Claim C6: if the environment has no TERM entry, Shell::spawn inserts
TERM=xterm-256color; if TERM is present the whole environment is left
unchanged; and in every case no key other than TERM is added, removed or
modified. -/
theorem c6_term_env_injection (env : Environment) :
    (env "TERM" = none →
      prepareShellEnvironment env "TERM" = some "xterm-256color")
    ∧ ((env "TERM").isSome = true → prepareShellEnvironment env = env)
    ∧ (∀ k : String, k ≠ "TERM" → prepareShellEnvironment env k = env k) := by
  refine ⟨?_, ?_, ?_⟩
  · intro h
    simp [prepareShellEnvironment, StrMap.contains_key, h, StrMap.insert]
  · intro h
    simp [prepareShellEnvironment, StrMap.contains_key, h]
  · intro k hk
    by_cases h : (env "TERM").isSome
    · simp [prepareShellEnvironment, StrMap.contains_key, h]
    · simp [prepareShellEnvironment, StrMap.contains_key, h, StrMap.insert, hk]

/-- Witness for C6: injection into an empty environment, the frame
property at the key PATH, and preservation of an existing TERM entry. -/
theorem c6_term_env_injection_witness :
    prepareShellEnvironment StrMap.empty "TERM" = some "xterm-256color"
    ∧ prepareShellEnvironment StrMap.empty "PATH" = StrMap.empty "PATH"
    ∧ prepareShellEnvironment (StrMap.insert StrMap.empty "TERM" "vt100") =
        StrMap.insert StrMap.empty "TERM" "vt100" :=
  ⟨(c6_term_env_injection StrMap.empty).1 rfl,
    (c6_term_env_injection StrMap.empty).2.2 "PATH" (by decide),
    (c6_term_env_injection (StrMap.insert StrMap.empty "TERM" "vt100")).2.1
      (by decide)⟩

/-- Claim C7: with a supplied command Shell::spawn uses it as given and
does not consult system_info; with no command it consults system_info and
picks cmd.exe when the reported family equals windows case-insensitively,
and /bin/sh otherwise. -/
theorem c7_shell_cmd_selection (cmd : Option String) (family : String) :
    (∀ c : String, cmd = some c → chooseShellCmd cmd family = (c, false))
    ∧ (cmd = none → eqIgnoreAsciiCase family "windows" = true →
      chooseShellCmd cmd family = ("cmd.exe", true))
    ∧ (cmd = none → eqIgnoreAsciiCase family "windows" = false →
      chooseShellCmd cmd family = ("/bin/sh", true)) := by
  refine ⟨?_, ?_, ?_⟩
  · rintro c rfl
    rfl
  · rintro rfl h
    simp [chooseShellCmd, h]
  · rintro rfl h
    simp [chooseShellCmd, h]

/-- Witness for C7: explicit command passes through; family WINDOWS picks
cmd.exe case-insensitively; family linux picks /bin/sh. -/
theorem c7_shell_cmd_selection_witness :
    chooseShellCmd (some "/bin/bash") "Windows" = ("/bin/bash", false)
    ∧ chooseShellCmd none "WINDOWS" = ("cmd.exe", true)
    ∧ chooseShellCmd none "linux" = ("/bin/sh", true) :=
  ⟨(c7_shell_cmd_selection (some "/bin/bash") "Windows").1 "/bin/bash" rfl,
    (c7_shell_cmd_selection none "WINDOWS").2.1 rfl (by decide),
    (c7_shell_cmd_selection none "linux").2.2 rfl (by decide)⟩

/-- Claim C8 counterexample: when envelope serialization fails (as
serde_json::to_vec can, for instance on a non-UTF-8 path inside the
payload), Json-mode printing returns an InvalidData error and no
serialized line, so Json printing does not unconditionally produce one
line per response as the original claim states. -/
theorem c8_json_failure_counterexample :
    printResponse (fun st (_ : Nat) => (Output.None, st))
        (fun _ => Except.error "path contains invalid UTF-8 characters")
        Format.Json (FormatterState.mk none)
        (Response.mk "a" none (DistantMsg.Single 0)) =
      Except.error IoErrorKind.InvalidData := rfl

/-- Claim C8 (amended): in Shell format a batch response is rejected with
an InvalidData error (no output is produced); in Json format, whenever
envelope serialization succeeds the response, batch or not, becomes one
stdout line holding the serialized envelope followed by a newline, the
Json output distinguishing exactly what the serializer distinguishes;
a serialization failure is reported as an InvalidData error with no
output. -/
theorem c8_print_batch_and_json (D : Type)
    (format_shell : FormatterState → D → Output × FormatterState)
    (serialize : Response (DistantMsg D) → Except String String)
    (st : FormatterState) (res r1 r2 : Response (DistantMsg D))
    (b1 b2 : String) :
    (res.payload.is_batch = true →
      printResponse format_shell serialize Format.Shell st res =
        Except.error IoErrorKind.InvalidData)
    ∧ (∀ bytes : String, serialize res = Except.ok bytes →
      printResponse format_shell serialize Format.Json st res =
        Except.ok (Output.StdoutLine bytes, st))
    ∧ (∀ err : String, serialize res = Except.error err →
      printResponse format_shell serialize Format.Json st res =
        Except.error IoErrorKind.InvalidData)
    ∧ (∀ bytes : String, (Output.StdoutLine bytes).writes =
        [(OutChannel.StdoutCh, bytes), (OutChannel.StdoutCh, "\n")])
    ∧ (serialize r1 = Except.ok b1 → serialize r2 = Except.ok b2 →
      (printResponse format_shell serialize Format.Json st r1 =
        printResponse format_shell serialize Format.Json st r2 ↔ b1 = b2)) := by
  refine ⟨?_, ?_, ?_, fun _ => rfl, ?_⟩
  · intro h
    cases hp : res.payload with
    | Single d =>
      rw [hp] at h
      simp [DistantMsg.is_batch] at h
    | Batch ts =>
      simp [printResponse, hp]
  · intro bytes h
    simp [printResponse, h]
  · intro err h
    simp [printResponse, h]
  · intro h1 h2
    simp [printResponse, h1, h2]

/-- Witness for C8: a concrete batch response is rejected in Shell
format, is printed as one serialized line in Json format when the
serializer succeeds on it, a response the serializer fails on yields
InvalidData in Json format, and Json output equality matches serialized
equality. The concrete serializer succeeds with B on batch payloads and
fails with E on single payloads. -/
theorem c8_print_batch_and_json_witness :
    printResponse (fun st (_ : Nat) => (Output.None, st))
        (fun r => match r.payload with
          | DistantMsg.Batch _ => Except.ok "B"
          | DistantMsg.Single _ => Except.error "E")
        Format.Shell (FormatterState.mk none)
        (Response.mk "a" none (DistantMsg.Batch [0])) =
      Except.error IoErrorKind.InvalidData
    ∧ printResponse (fun st (_ : Nat) => (Output.None, st))
        (fun r => match r.payload with
          | DistantMsg.Batch _ => Except.ok "B"
          | DistantMsg.Single _ => Except.error "E")
        Format.Json (FormatterState.mk none)
        (Response.mk "a" none (DistantMsg.Batch [0])) =
      Except.ok (Output.StdoutLine "B", FormatterState.mk none)
    ∧ printResponse (fun st (_ : Nat) => (Output.None, st))
        (fun r => match r.payload with
          | DistantMsg.Batch _ => Except.ok "B"
          | DistantMsg.Single _ => Except.error "E")
        Format.Json (FormatterState.mk none)
        (Response.mk "c" none (DistantMsg.Single 0)) =
      Except.error IoErrorKind.InvalidData
    ∧ (printResponse (fun st (_ : Nat) => (Output.None, st))
        (fun r => match r.payload with
          | DistantMsg.Batch _ => Except.ok "B"
          | DistantMsg.Single _ => Except.error "E")
        Format.Json (FormatterState.mk none)
        (Response.mk "a" none (DistantMsg.Batch [0])) =
      printResponse (fun st (_ : Nat) => (Output.None, st))
        (fun r => match r.payload with
          | DistantMsg.Batch _ => Except.ok "B"
          | DistantMsg.Single _ => Except.error "E")
        Format.Json (FormatterState.mk none)
        (Response.mk "b" none (DistantMsg.Batch [0, 1])) ↔ ("B" : String) = "B") :=
  ⟨(c8_print_batch_and_json Nat (fun st _ => (Output.None, st))
      (fun r => match r.payload with
        | DistantMsg.Batch _ => Except.ok "B"
        | DistantMsg.Single _ => Except.error "E")
      (FormatterState.mk none) (Response.mk "a" none (DistantMsg.Batch [0]))
      (Response.mk "a" none (DistantMsg.Batch [0]))
      (Response.mk "b" none (DistantMsg.Batch [0, 1])) "B" "B").1 rfl,
    (c8_print_batch_and_json Nat (fun st _ => (Output.None, st))
      (fun r => match r.payload with
        | DistantMsg.Batch _ => Except.ok "B"
        | DistantMsg.Single _ => Except.error "E")
      (FormatterState.mk none) (Response.mk "a" none (DistantMsg.Batch [0]))
      (Response.mk "a" none (DistantMsg.Batch [0]))
      (Response.mk "b" none (DistantMsg.Batch [0, 1])) "B" "B").2.1 "B" rfl,
    (c8_print_batch_and_json Nat (fun st _ => (Output.None, st))
      (fun r => match r.payload with
        | DistantMsg.Batch _ => Except.ok "B"
        | DistantMsg.Single _ => Except.error "E")
      (FormatterState.mk none) (Response.mk "c" none (DistantMsg.Single 0))
      (Response.mk "a" none (DistantMsg.Batch [0]))
      (Response.mk "b" none (DistantMsg.Batch [0, 1])) "B" "B").2.2.1 "E" rfl,
    (c8_print_batch_and_json Nat (fun st _ => (Output.None, st))
      (fun r => match r.payload with
        | DistantMsg.Batch _ => Except.ok "B"
        | DistantMsg.Single _ => Except.error "E")
      (FormatterState.mk none) (Response.mk "a" none (DistantMsg.Batch [0]))
      (Response.mk "a" none (DistantMsg.Batch [0]))
      (Response.mk "b" none (DistantMsg.Batch [0, 1])) "B" "B").2.2.2.2 rfl rfl⟩

/-- Claim C9: Question::new uses the text for the label and leaves the
options map empty. -/
theorem c9_question_new_defaults (t : String) :
    (Question.new t).label = (Question.new t).text
    ∧ (Question.new t).label = t
    ∧ (∀ k : String, (Question.new t).options k = none) :=
  ⟨rfl, rfl, fun _ => rfl⟩

/-- Claim C10: with quiet set the distant module logs at Off regardless of
verbosity; otherwise the distant level is Warn, Info, Debug or Trace for
verbose counts 0, 1, 2 and at least 3; every other module is filtered to
Off. -/
theorem c10_init_logging_levels (quiet : Bool) (verbose : Nat) :
    (quiet = true →
      (init_logging quiet verbose).levelFor "distant" = LevelFilter.Off)
    ∧ (quiet = false →
      (verbose = 0 →
        (init_logging quiet verbose).levelFor "distant" = LevelFilter.Warn)
      ∧ (verbose = 1 →
        (init_logging quiet verbose).levelFor "distant" = LevelFilter.Info)
      ∧ (verbose = 2 →
        (init_logging quiet verbose).levelFor "distant" = LevelFilter.Debug)
      ∧ (3 ≤ verbose →
        (init_logging quiet verbose).levelFor "distant" = LevelFilter.Trace))
    ∧ (∀ m : String, m ≠ "distant" →
      (init_logging quiet verbose).levelFor m = LevelFilter.Off) := by
  refine ⟨?_, ?_, ?_⟩
  · rintro rfl
    simp [init_logging, LogSpecBuilder.module, LogSpecBuilder.setDefault,
      LogSpecBuilder.levelFor, List.find?]
  · rintro rfl
    refine ⟨?_, ?_, ?_, ?_⟩
    · rintro rfl
      simp [init_logging, LogSpecBuilder.module, LogSpecBuilder.setDefault,
        LogSpecBuilder.levelFor, List.find?]
    · rintro rfl
      simp [init_logging, LogSpecBuilder.module, LogSpecBuilder.setDefault,
        LogSpecBuilder.levelFor, List.find?]
    · rintro rfl
      simp [init_logging, LogSpecBuilder.module, LogSpecBuilder.setDefault,
        LogSpecBuilder.levelFor, List.find?]
    · intro h
      obtain ⟨n, rfl⟩ : ∃ n, verbose = n + 3 := ⟨verbose - 3, by omega⟩
      simp [init_logging, LogSpecBuilder.module, LogSpecBuilder.setDefault,
        LogSpecBuilder.levelFor, List.find?]
  · intro m hm
    have hne : (("distant" : String) == m) = false :=
      beq_eq_false_iff_ne.mpr (fun hh => hm hh.symm)
    cases quiet <;>
      simp [init_logging, LogSpecBuilder.module, LogSpecBuilder.setDefault,
        LogSpecBuilder.levelFor, List.find?, hne]

/-- Witness for C10, covering quiet suppression, each verbosity level, and
the off filtering of a foreign module. -/
theorem c10_init_logging_levels_witness :
    (init_logging true 5).levelFor "distant" = LevelFilter.Off
    ∧ (init_logging false 0).levelFor "distant" = LevelFilter.Warn
    ∧ (init_logging false 1).levelFor "distant" = LevelFilter.Info
    ∧ (init_logging false 2).levelFor "distant" = LevelFilter.Debug
    ∧ (init_logging false 9).levelFor "distant" = LevelFilter.Trace
    ∧ (init_logging false 0).levelFor "tokio" = LevelFilter.Off :=
  ⟨(c10_init_logging_levels true 5).1 rfl,
    ((c10_init_logging_levels false 0).2.1 rfl).1 rfl,
    ((c10_init_logging_levels false 1).2.1 rfl).2.1 rfl,
    ((c10_init_logging_levels false 2).2.1 rfl).2.2.1 rfl,
    ((c10_init_logging_levels false 9).2.1 rfl).2.2.2 (by norm_num),
    (c10_init_logging_levels false 0).2.2 "tokio" (by decide)⟩

end Distant
